import Mathlib

/-!
A shallow embedding of `src/syslog/retry.rs` from the `sloggers` repository:
the self-healing `Retry` drain wrapper.  The wrapper owns an optional current
drain, a saturating counter of dropped log records, and the monotonic time of
the last reconnection attempt.  External calls (delivery through a drain, the
drain factory) are modelled by a per-call oracle `Env` that fixes the outcome
of each call in program order, and the embedding emits an event trace so that
properties about which external calls happen, how often and in which order can
be stated and proved.

Time is modelled as a natural number of milliseconds; `Instant::saturating_duration_since`
becomes truncated `Nat` subtraction, which saturates at zero exactly as the
Rust operation does.  `usize` counters are `Nat` with an explicit saturation
bound `USIZE_MAX = 2 ^ 64 - 1` (the target's 64-bit `usize`), mirroring
`usize::saturating_add`.
-/

/-- `RETRY_TIME` from retry.rs: how long to wait between retries, in ms. -/
def RETRY_TIME : Nat := 50

/-- The largest value of the 64-bit `usize` type. -/
def USIZE_MAX : Nat := 2 ^ 64 - 1

/-- `usize::saturating_add` on the 64-bit model. -/
def usizeSatAdd (a b : Nat) : Nat := min (a + b) USIZE_MAX

/-- Severity levels of `slog::Level`. -/
inductive Level where
  | critical
  | error
  | warning
  | info
  | debug
  | trace
deriving DecidableEq, Repr

/-- A log record: severity, logger tag, message text, and integer-valued
structured key-value fields (the only kind the wrapper itself produces). -/
structure LogRecord where
  level : Level
  tag : String
  msg : String
  kv : List (String × Nat)
deriving DecidableEq, Repr

/-- The synthetic accounting record built at retry.rs lines 115-120:
`record!(Level::Error, "sloggers::syslog", format_args!("sloggers::syslog:
disconnected from log service; N messages dropped"), b!("count" => dropped))`. -/
def acctRecord (dropped : Nat) : LogRecord :=
  { level := Level.error
  , tag := "sloggers::syslog"
  , msg := "sloggers::syslog: disconnected from log service; " ++
      toString dropped ++ " messages dropped"
  , kv := [("count", dropped)] }

/-- Observable external calls made by the wrapper, in program order.
`drainLog d rec ok` is a delivery attempt of `rec` through the drain with
identity `d`, with outcome `ok`; `factoryCall r` is an invocation of the
drain factory returning a fresh drain identity on success. -/
inductive Event where
  | drainLog (drain : Nat) (rec : LogRecord) (ok : Bool)
  | factoryCall (result : Option Nat)
deriving DecidableEq, Repr

/-- Is this event a factory invocation? -/
def Event.isFactoryCall : Event → Bool
  | .factoryCall _ => true
  | _ => false

/-- `RetryState` from retry.rs: the mutable state behind the `RefCell`. -/
structure RetryState where
  current_drain : Option Nat
  dropped_logs : Nat
  last_try_time : Nat
deriving DecidableEq, Repr

/-- `RetryState::incr_dropped_logs`: saturating increment of the drop count. -/
def RetryState.incr_dropped_logs (s : RetryState) : RetryState :=
  { s with dropped_logs := usizeSatAdd s.dropped_logs 1 }

/-- `RetryState::should_try_again`: checks whether `RETRY_TIME` has passed
since `last_try_time` (saturating subtraction, as
`Instant::saturating_duration_since`); when it has, the timeout is reset to
`now`.  Returns the decision together with the updated state. -/
def RetryState.should_try_again (s : RetryState) (now : Nat) : Bool × RetryState :=
  if now - s.last_try_time < RETRY_TIME then
    (false, s)
  else
    (true, { s with last_try_time := now })

/-- Per-call oracle fixing the outcomes of the external calls a single
`Retry::log` call can make, in program order: the current time, whether a
delivery through the pre-existing drain would succeed, the factory's result
(a fresh drain identity, or failure), and whether the candidate drain accepts
the accounting record and the original record respectively. -/
structure Env where
  now : Nat
  currentOk : Bool
  factoryResult : Option Nat
  acctOk : Bool
  origOk : Bool
deriving DecidableEq, Repr

/-- Result of one `Retry::log` call: the returned value (the error type is
`slog::Never`, embedded as `Empty`), the state after the call, and the trace
of external calls made. -/
structure LogOutcome where
  result : Except Empty Unit
  state : RetryState
  events : List Event
deriving Repr

/-- Delivery of the original record through a freshly constructed candidate
drain `d` (retry.rs lines 134-143): on failure increment the drop count and
give up; on success adopt the candidate as the current drain. -/
def Retry.deliverOriginal (env : Env) (record : LogRecord) (d : Nat)
    (s : RetryState) (evs : List Event) : LogOutcome :=
  if env.origOk then
    { result := Except.ok ()
    , state := { s with current_drain := some d }
    , events := evs ++ [Event.drainLog d record true] }
  else
    { result := Except.ok ()
    , state := s.incr_dropped_logs
    , events := evs ++ [Event.drainLog d record false] }

/-- The recovery path of `Retry::log` (retry.rs lines 93-143), entered with
no current drain: rate-limit via `should_try_again`, call the factory, send
the accounting record when messages were dropped, then the original record. -/
def Retry.logDisconnected (env : Env) (record : LogRecord)
    (s : RetryState) (evs : List Event) : LogOutcome :=
  match s.should_try_again env.now with
  | (false, s1) =>
    { result := Except.ok (), state := s1.incr_dropped_logs, events := evs }
  | (true, s1) =>
    match env.factoryResult with
    | none =>
      { result := Except.ok ()
      , state := s1.incr_dropped_logs
      , events := evs ++ [Event.factoryCall none] }
    | some d =>
      let evs1 := evs ++ [Event.factoryCall (some d)]
      if s1.dropped_logs ≠ 0 then
        let evs2 := evs1 ++ [Event.drainLog d (acctRecord s1.dropped_logs) env.acctOk]
        if env.acctOk then
          Retry.deliverOriginal env record d { s1 with dropped_logs := 0 } evs2
        else
          { result := Except.ok (), state := s1.incr_dropped_logs, events := evs2 }
      else
        Retry.deliverOriginal env record d s1 evs1

/-- `Retry::log` (retry.rs lines 74-144).  If a current drain exists, try it
first; on success return immediately, on failure discard it and fall through
to the recovery path. -/
def Retry.log (env : Env) (record : LogRecord) (s : RetryState) : LogOutcome :=
  match s.current_drain with
  | some d =>
    if env.currentOk then
      { result := Except.ok (), state := s, events := [Event.drainLog d record true] }
    else
      Retry.logDisconnected env record { s with current_drain := none }
        [Event.drainLog d record false]
  | none => Retry.logDisconnected env record s []

/-- `Retry::new` (retry.rs lines 43-54): invoke the factory once; on success
initialise the state with the fresh drain, a zero drop count and the current
time; on failure propagate the factory's error. -/
def Retry.new {E : Type} (factoryResult : Except E Nat) (now : Nat) :
    Except E RetryState × List Event :=
  match factoryResult with
  | Except.error e => (Except.error e, [Event.factoryCall none])
  | Except.ok d =>
    ( Except.ok
        { current_drain := some d, dropped_logs := 0, last_try_time := now }
    , [Event.factoryCall (some d)] )

/-- A sequence of `Retry::log` calls, threading the state and concatenating
the event traces. -/
def Retry.logSeq (calls : List (Env × LogRecord)) (s : RetryState) :
    RetryState × List Event :=
  match calls with
  | [] => (s, [])
  | c :: rest =>
    let o := Retry.log c.1 c.2 s
    let r := Retry.logSeq rest o.state
    (r.1, o.events ++ r.2)

/-- The events produced by step 1 of `Retry::log` on the failure/absent
paths: a failed delivery through the pre-existing drain when there was one,
nothing when there was none. -/
def stepOneEvents (cd : Option Nat) (record : LogRecord) : List Event :=
  match cd with
  | some d0 => [Event.drainLog d0 record false]
  | none => []

/-- Any value of the return type of the embedded drain is a success: the
error type is uninhabited, as the Rust error type is the empty `slog::Never`. -/
lemma exceptNeverOk : ∀ x : Except Empty Unit, x = Except.ok ()
  | Except.ok () => rfl
  | Except.error e => e.elim

lemma USIZE_MAX_pos : 0 < USIZE_MAX := by norm_num [USIZE_MAX]

lemma usizeSatAdd_one_ne_zero (n : Nat) : usizeSatAdd n 1 ≠ 0 := by
  rw [usizeSatAdd, Ne, Nat.min_eq_zero_iff]
  push_neg
  exact ⟨Nat.succ_ne_zero n, Nat.pos_iff_ne_zero.mp USIZE_MAX_pos⟩

lemma usizeSatAdd_one_of_lt (n : Nat) (h : n < USIZE_MAX) : usizeSatAdd n 1 = n + 1 :=
  Nat.min_eq_left (by omega)

lemma usizeSatAdd_zero_one : usizeSatAdd 0 1 = 1 :=
  usizeSatAdd_one_of_lt 0 USIZE_MAX_pos

/-- The hot path (retry.rs lines 82-86): with a current drain that accepts the
record, the call returns at once leaving the state untouched, and the only
external call is the one successful delivery. -/
lemma retry_log_hot (env : Env) (record : LogRecord) (s : RetryState) (d : Nat)
    (hc : s.current_drain = some d) (hok : env.currentOk = true) :
    Retry.log env record s =
      { result := Except.ok (), state := s, events := [Event.drainLog d record true] } := by
  simp [Retry.log, hc, hok]

/-- The drop path (retry.rs lines 93-98): disconnected (no current drain, or
the current drain rejects the record) and the retry interval has not yet
elapsed: no factory call, the drop count is incremented, the timeout keeps
its old value. -/
lemma retry_log_too_soon (env : Env) (record : LogRecord) (s : RetryState)
    (hdisc : s.current_drain = none ∨ env.currentOk = false)
    (hlt : env.now - s.last_try_time < RETRY_TIME) :
    Retry.log env record s =
      { result := Except.ok ()
      , state := { current_drain := none
                 , dropped_logs := usizeSatAdd s.dropped_logs 1
                 , last_try_time := s.last_try_time }
      , events := stepOneEvents s.current_drain record } := by
  cases hcd : s.current_drain with
  | none =>
    simp [Retry.log, hcd, Retry.logDisconnected, RetryState.should_try_again, hlt,
      RetryState.incr_dropped_logs, stepOneEvents]
  | some d0 =>
    have hco : env.currentOk = false := by
      rcases hdisc with h | h
      · rw [hcd] at h; exact absurd h (by simp)
      · exact h
    simp [Retry.log, hcd, hco, Retry.logDisconnected, RetryState.should_try_again, hlt,
      RetryState.incr_dropped_logs, stepOneEvents]

/-- The recovery path (retry.rs lines 100-143): disconnected and the retry
interval has elapsed.  One factory call happens; on factory failure the call
just counts a drop (timeout already reset); on factory success the accounting
record goes out first when messages were dropped, then the original record,
and the candidate drain is adopted only when every delivery succeeded. -/
lemma retry_log_recovery_full (env : Env) (record : LogRecord) (s : RetryState)
    (hdisc : s.current_drain = none ∨ env.currentOk = false)
    (helapsed : RETRY_TIME ≤ env.now - s.last_try_time) :
    Retry.log env record s =
      match env.factoryResult with
      | none =>
        { result := Except.ok ()
        , state := { current_drain := none
                   , dropped_logs := usizeSatAdd s.dropped_logs 1
                   , last_try_time := env.now }
        , events := stepOneEvents s.current_drain record ++ [Event.factoryCall none] }
      | some d =>
        if s.dropped_logs ≠ 0 then
          { result := Except.ok ()
          , state :=
              if env.acctOk then
                if env.origOk then
                  { current_drain := some d, dropped_logs := 0, last_try_time := env.now }
                else
                  { current_drain := none
                  , dropped_logs := usizeSatAdd 0 1
                  , last_try_time := env.now }
              else
                { current_drain := none
                , dropped_logs := usizeSatAdd s.dropped_logs 1
                , last_try_time := env.now }
          , events :=
              stepOneEvents s.current_drain record ++
                [ Event.factoryCall (some d)
                , Event.drainLog d (acctRecord s.dropped_logs) env.acctOk ] ++
                (if env.acctOk then [Event.drainLog d record env.origOk] else []) }
        else
          { result := Except.ok ()
          , state :=
              if env.origOk then
                { current_drain := some d, dropped_logs := 0, last_try_time := env.now }
              else
                { current_drain := none
                , dropped_logs := usizeSatAdd s.dropped_logs 1
                , last_try_time := env.now }
          , events :=
              stepOneEvents s.current_drain record ++
                [Event.factoryCall (some d), Event.drainLog d record env.origOk] } := by
  have hlt : ¬ (env.now - s.last_try_time < RETRY_TIME) := Nat.not_lt.mpr helapsed
  cases hcd : s.current_drain with
  | none =>
    cases hfr : env.factoryResult with
    | none =>
      simp [Retry.log, hcd, Retry.logDisconnected, RetryState.should_try_again, hlt, hfr,
        RetryState.incr_dropped_logs, stepOneEvents]
    | some d =>
      by_cases hk : s.dropped_logs = 0 <;>
        cases hacct : env.acctOk <;> cases horig : env.origOk <;>
          simp [Retry.log, hcd, Retry.logDisconnected, RetryState.should_try_again, hlt, hfr,
            hk, hacct, horig, Retry.deliverOriginal, RetryState.incr_dropped_logs, stepOneEvents]
  | some d0 =>
    have hco : env.currentOk = false := by
      rcases hdisc with h | h
      · rw [hcd] at h; exact absurd h (by simp)
      · exact h
    cases hfr : env.factoryResult with
    | none =>
      simp [Retry.log, hcd, hco, Retry.logDisconnected, RetryState.should_try_again, hlt, hfr,
        RetryState.incr_dropped_logs, stepOneEvents]
    | some d =>
      by_cases hk : s.dropped_logs = 0 <;>
        cases hacct : env.acctOk <;> cases horig : env.origOk <;>
          simp [Retry.log, hcd, hco, Retry.logDisconnected, RetryState.should_try_again, hlt, hfr,
            hk, hacct, horig, Retry.deliverOriginal, RetryState.incr_dropped_logs, stepOneEvents]

/-- C2: for every record and every wrapper state, the deliver operation
returns success to its caller; post-construction failures are never surfaced
through the return value. -/
theorem retry_log_never_fails (env : Env) (record : LogRecord) (s : RetryState) :
    (Retry.log env record s).result = Except.ok () :=
  exceptNeverOk _

/-- C9: every increment of the drop counter is a saturating addition: at the
maximum representable unsigned value a further drop leaves the counter at the
maximum instead of wrapping to zero. -/
theorem incr_dropped_logs_saturates (s : RetryState) (h : s.dropped_logs = USIZE_MAX) :
    (s.incr_dropped_logs).dropped_logs = USIZE_MAX ∧
    (s.incr_dropped_logs).dropped_logs ≠ 0 := by
  constructor
  · simp [RetryState.incr_dropped_logs, usizeSatAdd, h]
  · exact usizeSatAdd_one_ne_zero _

/-- Witness for C9 at a concrete saturated state. -/
theorem incr_dropped_logs_saturates_witness :
    (RetryState.incr_dropped_logs
        { current_drain := none, dropped_logs := USIZE_MAX, last_try_time := 0 }).dropped_logs
      = USIZE_MAX ∧
    (RetryState.incr_dropped_logs
        { current_drain := none, dropped_logs := USIZE_MAX, last_try_time := 0 }).dropped_logs
      ≠ 0 :=
  incr_dropped_logs_saturates
    { current_drain := none, dropped_logs := USIZE_MAX, last_try_time := 0 } rfl

/-- C7: construction invokes the factory exactly once; on success the state
starts with the fresh drain, a zero drop count and the current time; on
failure the factory's error is propagated and no wrapper state is produced. -/
theorem retry_new_correct {E : Type} (fr : Except E Nat) (now : Nat) :
    ((Retry.new fr now).2.filter Event.isFactoryCall).length = 1 ∧
    (∀ d : Nat, fr = Except.ok d →
      Retry.new fr now =
        ( Except.ok { current_drain := some d, dropped_logs := 0, last_try_time := now }
        , [Event.factoryCall (some d)] )) ∧
    (∀ e : E, fr = Except.error e →
      Retry.new fr now = (Except.error e, [Event.factoryCall none])) := by
  cases fr <;> simp [Retry.new, Event.isFactoryCall]

/-- Witness for C7 on a concrete successful and a concrete failing factory. -/
theorem retry_new_correct_witness :
    Retry.new (Except.ok 3 : Except Unit Nat) 7 =
      ( Except.ok { current_drain := some 3, dropped_logs := 0, last_try_time := 7 }
      , [Event.factoryCall (some 3)] ) ∧
    Retry.new (Except.error () : Except Unit Nat) 7 =
      (Except.error (), [Event.factoryCall none]) :=
  ⟨(retry_new_correct (Except.ok 3) 7).2.1 3 rfl,
   (retry_new_correct (Except.error ()) 7).2.2 () rfl⟩

/-- C6: over any sequence of deliver calls in which a current drain is
present and every underlying delivery succeeds, the wrapper state is left
completely unchanged, the trace is exactly one successful delivery per call,
and in particular no factory call and no drop occurs. -/
theorem retry_log_hot_path_seq (calls : List (Env × LogRecord)) (s : RetryState) (d : Nat)
    (hc : s.current_drain = some d)
    (hok : ∀ c ∈ calls, (c : Env × LogRecord).1.currentOk = true) :
    Retry.logSeq calls s = (s, calls.map fun c => Event.drainLog d c.2 true) ∧
    (Retry.logSeq calls s).2.filter Event.isFactoryCall = [] := by
  have main : Retry.logSeq calls s = (s, calls.map fun c => Event.drainLog d c.2 true) := by
    induction calls with
    | nil => rfl
    | cons c rest ih =>
      have h1 : c.1.currentOk = true := hok c (by simp)
      have ih2 := ih (fun x hx => hok x (by simp [hx]))
      simp [Retry.logSeq, retry_log_hot c.1 c.2 s d hc h1, ih2]
  refine ⟨main, ?_⟩
  rw [main]
  simp only [List.filter_eq_nil_iff, List.mem_map]
  rintro a ⟨c, hcmem, rfl⟩
  simp [Event.isFactoryCall]

/-- Witness for C6 on a concrete two-call sequence. -/
theorem retry_log_hot_path_seq_witness :
    Retry.logSeq
        [ ( { now := 0, currentOk := true, factoryResult := none, acctOk := true, origOk := true }
          , { level := Level.info, tag := "", msg := "a", kv := [] } )
        , ( { now := 1, currentOk := true, factoryResult := none, acctOk := true, origOk := true }
          , { level := Level.info, tag := "", msg := "b", kv := [] } ) ]
        { current_drain := some 5, dropped_logs := 0, last_try_time := 0 } =
      ( { current_drain := some 5, dropped_logs := 0, last_try_time := 0 }
      , [ Event.drainLog 5 { level := Level.info, tag := "", msg := "a", kv := [] } true
        , Event.drainLog 5 { level := Level.info, tag := "", msg := "b", kv := [] } true ] ) :=
  (retry_log_hot_path_seq _ _ 5 rfl (by decide)).1

/-- Concrete inputs exercising the reconnection-accounting path: disconnected
with one dropped message, interval elapsed, factory and both deliveries
succeed. -/
def c1Env : Env :=
  { now := 50, currentOk := true, factoryResult := some 1, acctOk := true, origOk := true }

def c1Rec : LogRecord := { level := Level.info, tag := "", msg := "hello", kv := [] }

def c1State : RetryState := { current_drain := none, dropped_logs := 1, last_try_time := 0 }

/-- C1 counterexample: on a concrete reconnection with one dropped message
the accounting record is delivered, but its message text is
"sloggers::syslog: disconnected from log service; 1 messages dropped": no
record delivered on this call carries the message
"disconnected from log service; 1 messages dropped" that the claim states. -/
theorem retry_acct_message_counterexample :
    (Retry.log c1Env c1Rec c1State).events =
      [ Event.factoryCall (some 1)
      , Event.drainLog 1 (acctRecord 1) true
      , Event.drainLog 1 c1Rec true ] ∧
    (acctRecord 1).msg = "sloggers::syslog: disconnected from log service; 1 messages dropped" ∧
    ((Retry.log c1Env c1Rec c1State).events.all fun e =>
      match e with
      | Event.drainLog _ r _ => r.msg != "disconnected from log service; 1 messages dropped"
      | Event.factoryCall _ => true) = true := by
  decide

/-- C1 (amended): on a deliver call that reaches a successful factory call
while `dropped_logs = k > 0`, exactly one accounting record is delivered
through the candidate drain, right after the factory call and before the
original record; it has severity error, message "sloggers::syslog:
disconnected from log service; N messages dropped" with N = k, and exactly
one structured field, named count, with value k; if both the accounting
record and the original record are delivered successfully, the drop counter
is reset to 0 and the candidate becomes the current drain. -/
theorem retry_log_reconnect_accounting (env : Env) (record : LogRecord)
    (s : RetryState) (d k : Nat)
    (hdisc : s.current_drain = none ∨ env.currentOk = false)
    (helapsed : RETRY_TIME ≤ env.now - s.last_try_time)
    (hfac : env.factoryResult = some d)
    (hk : s.dropped_logs = k) (hkpos : 0 < k) :
    (acctRecord k).level = Level.error ∧
    (acctRecord k).msg =
      "sloggers::syslog: disconnected from log service; " ++ toString k ++
        " messages dropped" ∧
    (acctRecord k).kv = [("count", k)] ∧
    (Retry.log env record s).events =
      stepOneEvents s.current_drain record ++
        [Event.factoryCall (some d), Event.drainLog d (acctRecord k) env.acctOk] ++
        (if env.acctOk then [Event.drainLog d record env.origOk] else []) ∧
    (env.acctOk = true → env.origOk = true →
      (Retry.log env record s).state =
        { current_drain := some d, dropped_logs := 0, last_try_time := env.now }) := by
  have hkne : k ≠ 0 := by omega
  have H := retry_log_recovery_full env record s hdisc helapsed
  rw [H]
  refine ⟨rfl, rfl, rfl, ?_, ?_⟩
  · simp [hfac, hk, hkne]
  · intro ha ho
    simp [hfac, hk, hkne, ha, ho]

/-- Witness for the amended C1 at the concrete inputs above. -/
theorem retry_log_reconnect_accounting_witness :
    (Retry.log c1Env c1Rec c1State).events =
      stepOneEvents c1State.current_drain c1Rec ++
        [Event.factoryCall (some 1), Event.drainLog 1 (acctRecord 1) c1Env.acctOk] ++
        (if c1Env.acctOk then [Event.drainLog 1 c1Rec c1Env.origOk] else []) ∧
    (Retry.log c1Env c1Rec c1State).state =
      { current_drain := some 1, dropped_logs := 0, last_try_time := 50 } :=
  ⟨(retry_log_reconnect_accounting c1Env c1Rec c1State 1 1
      (Or.inl rfl) (by decide) rfl rfl (by decide)).2.2.2.1,
   (retry_log_reconnect_accounting c1Env c1Rec c1State 1 1
      (Or.inl rfl) (by decide) rfl rfl (by decide)).2.2.2.2 rfl rfl⟩

/-- First call of the C3 counterexample: the current drain fails, but the
interval has elapsed and the reconnection succeeds within the same call. -/
def c3Env1 : Env :=
  { now := 50, currentOk := false, factoryResult := some 1, acctOk := true, origOk := true }

/-- Second call of the C3 counterexample: inside the retry window, and the
(recovered) current drain accepts the record. -/
def c3Env2 : Env :=
  { now := 60, currentOk := true, factoryResult := none, acctOk := true, origOk := true }

def c3Rec : LogRecord := { level := Level.info, tag := "", msg := "hello", kv := [] }

def c3S0 : RetryState := { current_drain := some 0, dropped_logs := 0, last_try_time := 0 }

/-- C3 counterexample: the previous deliver call suffered a sink delivery
failure (its trace holds a failed delivery) yet recovered within the same
call; the very next call comes before the retry interval has elapsed, makes
no factory call, and leaves the drop counter unchanged instead of increasing
it by exactly 1. -/
theorem retry_within_interval_counterexample :
    Event.drainLog 0 c3Rec false ∈ (Retry.log c3Env1 c3Rec c3S0).events ∧
    c3Env2.now - (Retry.log c3Env1 c3Rec c3S0).state.last_try_time < RETRY_TIME ∧
    (Retry.log c3Env2 c3Rec
        (Retry.log c3Env1 c3Rec c3S0).state).events.filter Event.isFactoryCall = [] ∧
    (Retry.log c3Env2 c3Rec (Retry.log c3Env1 c3Rec c3S0).state).state.dropped_logs ≠
      (Retry.log c3Env1 c3Rec c3S0).state.dropped_logs + 1 := by
  decide

/-- C3 (amended): when the previous deliver call suffered a sink delivery
failure and left the wrapper disconnected (no current drain), the very next
deliver call, arriving before the retry interval has elapsed since the last
retry time, makes no factory call and increases the drop counter by exactly
one saturating increment (exactly 1 whenever the counter is below the
maximum). -/
theorem retry_within_interval_no_factory (env1 env2 : Env) (rec1 rec2 : LogRecord)
    (s0 : RetryState)
    (hfail : ∃ d, Event.drainLog d rec1 false ∈ (Retry.log env1 rec1 s0).events)
    (hdisc : (Retry.log env1 rec1 s0).state.current_drain = none)
    (hlt : env2.now - (Retry.log env1 rec1 s0).state.last_try_time < RETRY_TIME) :
    (Retry.log env2 rec2
        (Retry.log env1 rec1 s0).state).events.filter Event.isFactoryCall = [] ∧
    (Retry.log env2 rec2 (Retry.log env1 rec1 s0).state).state.dropped_logs =
      usizeSatAdd (Retry.log env1 rec1 s0).state.dropped_logs 1 ∧
    ((Retry.log env1 rec1 s0).state.dropped_logs < USIZE_MAX →
      (Retry.log env2 rec2 (Retry.log env1 rec1 s0).state).state.dropped_logs =
        (Retry.log env1 rec1 s0).state.dropped_logs + 1) := by
  have H := retry_log_too_soon env2 rec2 (Retry.log env1 rec1 s0).state (Or.inl hdisc) hlt
  rw [H]
  refine ⟨?_, rfl, ?_⟩
  · simp [hdisc, stepOneEvents]
  · intro hmax
    exact usizeSatAdd_one_of_lt _ hmax

/-- Witness for the amended C3: a failed delivery at time 0 leaves the
wrapper disconnected with one drop; a second call at time 10 makes no
factory call and raises the counter to 2. -/
theorem retry_within_interval_no_factory_witness :
    (Retry.log
        { now := 10, currentOk := true, factoryResult := some 3, acctOk := true, origOk := true }
        c3Rec
        (Retry.log
          { now := 0, currentOk := false, factoryResult := some 3, acctOk := true, origOk := true }
          c3Rec c3S0).state).events.filter Event.isFactoryCall = [] ∧
    (Retry.log
        { now := 10, currentOk := true, factoryResult := some 3, acctOk := true, origOk := true }
        c3Rec
        (Retry.log
          { now := 0, currentOk := false, factoryResult := some 3, acctOk := true, origOk := true }
          c3Rec c3S0).state).state.dropped_logs =
      usizeSatAdd
        (Retry.log
          { now := 0, currentOk := false, factoryResult := some 3, acctOk := true, origOk := true }
          c3Rec c3S0).state.dropped_logs 1 ∧
    ((Retry.log
          { now := 0, currentOk := false, factoryResult := some 3, acctOk := true, origOk := true }
          c3Rec c3S0).state.dropped_logs < USIZE_MAX →
      (Retry.log
          { now := 10, currentOk := true, factoryResult := some 3, acctOk := true, origOk := true }
          c3Rec
          (Retry.log
            { now := 0, currentOk := false, factoryResult := some 3, acctOk := true, origOk := true }
            c3Rec c3S0).state).state.dropped_logs =
        (Retry.log
          { now := 0, currentOk := false, factoryResult := some 3, acctOk := true, origOk := true }
          c3Rec c3S0).state.dropped_logs + 1) :=
  retry_within_interval_no_factory
    { now := 0, currentOk := false, factoryResult := some 3, acctOk := true, origOk := true }
    { now := 10, currentOk := true, factoryResult := some 3, acctOk := true, origOk := true }
    c3Rec c3Rec c3S0 ⟨0, by decide⟩ (by decide) (by decide)

/-- C4: from a disconnected state (no current drain, or the current drain
fails on this call) with the retry interval elapsed, the deliver call makes
exactly one factory call and sets the last retry time to the current time
regardless of the factory's outcome; when the factory fails, the drop counter
is incremented (saturating; by exactly 1 below the maximum) and no drain is
adopted. -/
theorem retry_elapsed_invokes_factory_once (env : Env) (record : LogRecord) (s : RetryState)
    (hdisc : s.current_drain = none ∨ env.currentOk = false)
    (helapsed : RETRY_TIME ≤ env.now - s.last_try_time) :
    (Retry.log env record s).events.filter Event.isFactoryCall =
      [Event.factoryCall env.factoryResult] ∧
    (Retry.log env record s).state.last_try_time = env.now ∧
    (env.factoryResult = none →
      (Retry.log env record s).state.dropped_logs = usizeSatAdd s.dropped_logs 1 ∧
      (s.dropped_logs < USIZE_MAX →
        (Retry.log env record s).state.dropped_logs = s.dropped_logs + 1) ∧
      (Retry.log env record s).state.current_drain = none) := by
  have H := retry_log_recovery_full env record s hdisc helapsed
  rw [H]
  cases hfr : env.factoryResult <;> cases hcd : s.current_drain <;>
    by_cases hk : s.dropped_logs = 0 <;> cases hacct : env.acctOk <;> cases horig : env.origOk <;>
      simp [hfr, hcd, hk, hacct, horig, stepOneEvents, Event.isFactoryCall] <;>
        exact fun h => usizeSatAdd_one_of_lt _ h

/-- Witness for C4 from a concrete disconnected state with a failing
factory. -/
theorem retry_elapsed_invokes_factory_once_witness :
    (Retry.log
        { now := 50, currentOk := true, factoryResult := none, acctOk := true, origOk := true }
        c3Rec
        { current_drain := none, dropped_logs := 3, last_try_time := 0 }).events.filter
      Event.isFactoryCall = [Event.factoryCall none] ∧
    (Retry.log
        { now := 50, currentOk := true, factoryResult := none, acctOk := true, origOk := true }
        c3Rec
        { current_drain := none, dropped_logs := 3, last_try_time := 0 }).state.last_try_time
      = 50 ∧
    (Retry.log
        { now := 50, currentOk := true, factoryResult := none, acctOk := true, origOk := true }
        c3Rec
        { current_drain := none, dropped_logs := 3, last_try_time := 0 }).state.dropped_logs
      = 4 ∧
    (Retry.log
        { now := 50, currentOk := true, factoryResult := none, acctOk := true, origOk := true }
        c3Rec
        { current_drain := none, dropped_logs := 3, last_try_time := 0 }).state.current_drain
      = none := by
  have H := retry_elapsed_invokes_factory_once
    { now := 50, currentOk := true, factoryResult := none, acctOk := true, origOk := true }
    c3Rec { current_drain := none, dropped_logs := 3, last_try_time := 0 }
    (Or.inl rfl) (by decide)
  have H2 := H.2.2 rfl
  exact ⟨H.1, H.2.1, by rw [H2.1]; decide, H2.2.2⟩

/-- C5: when the factory succeeds but the candidate drain rejects the
accounting record, the candidate is discarded (no drain is adopted), the drop
counter is incremented rather than reset, and the original record is not
delivered successfully by that call. -/
theorem retry_acct_failure_discards (env : Env) (record : LogRecord) (s : RetryState)
    (d : Nat)
    (hdisc : s.current_drain = none ∨ env.currentOk = false)
    (helapsed : RETRY_TIME ≤ env.now - s.last_try_time)
    (hfac : env.factoryResult = some d)
    (hkne : s.dropped_logs ≠ 0)
    (hacct : env.acctOk = false) :
    (Retry.log env record s).state.current_drain = none ∧
    (Retry.log env record s).state.dropped_logs = usizeSatAdd s.dropped_logs 1 ∧
    (s.dropped_logs < USIZE_MAX →
      (Retry.log env record s).state.dropped_logs = s.dropped_logs + 1) ∧
    (Retry.log env record s).events =
      stepOneEvents s.current_drain record ++
        [Event.factoryCall (some d), Event.drainLog d (acctRecord s.dropped_logs) false] ∧
    (∀ d2 : Nat, Event.drainLog d2 record true ∉ (Retry.log env record s).events) := by
  have H := retry_log_recovery_full env record s hdisc helapsed
  rw [H]
  cases hcd : s.current_drain <;>
    simp [hfac, hkne, hacct, stepOneEvents] <;>
      exact fun h => usizeSatAdd_one_of_lt _ h

/-- Witness for C5 at a concrete input. -/
theorem retry_acct_failure_discards_witness :
    (Retry.log
        { now := 50, currentOk := true, factoryResult := some 2, acctOk := false, origOk := true }
        c3Rec
        { current_drain := none, dropped_logs := 5, last_try_time := 0 }).state.current_drain
      = none ∧
    (Retry.log
        { now := 50, currentOk := true, factoryResult := some 2, acctOk := false, origOk := true }
        c3Rec
        { current_drain := none, dropped_logs := 5, last_try_time := 0 }).state.dropped_logs
      = 6 ∧
    (∀ d2 : Nat,
      Event.drainLog d2 c3Rec true ∉
        (Retry.log
          { now := 50, currentOk := true, factoryResult := some 2, acctOk := false, origOk := true }
          c3Rec
          { current_drain := none, dropped_logs := 5, last_try_time := 0 }).events) := by
  have H := retry_acct_failure_discards
    { now := 50, currentOk := true, factoryResult := some 2, acctOk := false, origOk := true }
    c3Rec { current_drain := none, dropped_logs := 5, last_try_time := 0 } 2
    (Or.inl rfl) (by decide) rfl (by decide) rfl
  exact ⟨H.1, by rw [H.2.1]; decide, H.2.2.2.2⟩

/-- C10: when the factory succeeds, the accounting record is delivered
successfully, and the delivery of the original record then fails, the final
state has a drop count of exactly 1 (the counter was reset before the
original-record attempt, so the earlier drops are no longer counted) and no
current drain. -/
theorem retry_orig_failure_after_acct (env : Env) (record : LogRecord) (s : RetryState)
    (d : Nat)
    (hdisc : s.current_drain = none ∨ env.currentOk = false)
    (helapsed : RETRY_TIME ≤ env.now - s.last_try_time)
    (hfac : env.factoryResult = some d)
    (hkne : s.dropped_logs ≠ 0)
    (hacct : env.acctOk = true)
    (horig : env.origOk = false) :
    (Retry.log env record s).state.dropped_logs = 1 ∧
    (Retry.log env record s).state.current_drain = none := by
  have H := retry_log_recovery_full env record s hdisc helapsed
  rw [H]
  simp [hfac, hkne, hacct, horig, usizeSatAdd_zero_one]

/-- Witness for C10 at a concrete input with five previously dropped
messages. -/
theorem retry_orig_failure_after_acct_witness :
    (Retry.log
        { now := 50, currentOk := true, factoryResult := some 4, acctOk := true, origOk := false }
        c3Rec
        { current_drain := none, dropped_logs := 5, last_try_time := 0 }).state.dropped_logs
      = 1 ∧
    (Retry.log
        { now := 50, currentOk := true, factoryResult := some 4, acctOk := true, origOk := false }
        c3Rec
        { current_drain := none, dropped_logs := 5, last_try_time := 0 }).state.current_drain
      = none :=
  retry_orig_failure_after_acct
    { now := 50, currentOk := true, factoryResult := some 4, acctOk := true, origOk := false }
    c3Rec { current_drain := none, dropped_logs := 5, last_try_time := 0 } 4
    (Or.inl rfl) (by decide) rfl (by decide) rfl rfl

/-- C8 helper: on the disconnected paths, a deliver call that ends with a
zero drop counter after starting with a nonzero one must have gone through a
successful accounting delivery on a drain the factory just produced. -/
lemma retry_drop_reset_disconnected (env : Env) (record : LogRecord) (s : RetryState)
    (h0 : s.dropped_logs ≠ 0)
    (hdisc : s.current_drain = none ∨ env.currentOk = false)
    (hreset : (Retry.log env record s).state.dropped_logs = 0) :
    env.acctOk = true ∧
    ∃ d, Event.factoryCall (some d) ∈ (Retry.log env record s).events ∧
      Event.drainLog d (acctRecord s.dropped_logs) true ∈ (Retry.log env record s).events := by
  by_cases htime : env.now - s.last_try_time < RETRY_TIME
  · rw [retry_log_too_soon env record s hdisc htime] at hreset
    exact absurd hreset (usizeSatAdd_one_ne_zero _)
  · have H := retry_log_recovery_full env record s hdisc (Nat.le_of_not_lt htime)
    rw [H] at hreset ⊢
    cases hfr : env.factoryResult with
    | none =>
      rw [hfr] at hreset
      simp [usizeSatAdd_one_ne_zero] at hreset
    | some d =>
      rw [hfr] at hreset
      simp only [h0, if_true, ne_eq, not_false_iff] at hreset
      cases hacct : env.acctOk <;> cases horig : env.origOk <;>
        rw [hacct, horig] at hreset <;>
          simp [usizeSatAdd_one_ne_zero, usizeSatAdd_zero_one] at hreset
      · refine ⟨rfl, d, ?_, ?_⟩ <;>
          cases hcd : s.current_drain <;>
            simp [hfr, h0, hacct, horig, stepOneEvents]

/-- C8: over every state and every deliver call, the drop counter is reset to
zero only immediately after the synthetic accounting record has been
successfully delivered through a drain the factory produced during that same
call (one not yet adopted when the delivery happens): whenever a call turns a
nonzero counter into zero, its trace contains a successful factory call and a
successful delivery of the accounting record through that new drain. -/
theorem retry_drop_reset_only_after_acct (env : Env) (record : LogRecord) (s : RetryState)
    (h0 : s.dropped_logs ≠ 0)
    (hreset : (Retry.log env record s).state.dropped_logs = 0) :
    env.acctOk = true ∧
    ∃ d, Event.factoryCall (some d) ∈ (Retry.log env record s).events ∧
      Event.drainLog d (acctRecord s.dropped_logs) true ∈ (Retry.log env record s).events := by
  cases hcd : s.current_drain with
  | none => exact retry_drop_reset_disconnected env record s h0 (Or.inl hcd) hreset
  | some d0 =>
    cases hco : env.currentOk with
    | true =>
      rw [retry_log_hot env record s d0 hcd hco] at hreset
      exact absurd hreset h0
    | false => exact retry_drop_reset_disconnected env record s h0 (Or.inr hco) hreset

/-- Witness for C8: a concrete call that resets the counter, exhibiting the
factory call and the successful accounting delivery in its trace. -/
theorem retry_drop_reset_only_after_acct_witness :
    ({ now := 50, currentOk := true, factoryResult := some 2
     , acctOk := true, origOk := true } : Env).acctOk = true ∧
    ∃ d,
      Event.factoryCall (some d) ∈
        (Retry.log
          { now := 50, currentOk := true, factoryResult := some 2, acctOk := true, origOk := true }
          c3Rec
          { current_drain := none, dropped_logs := 1, last_try_time := 0 }).events ∧
      Event.drainLog d
          (acctRecord ({ current_drain := none, dropped_logs := 1
                       , last_try_time := 0 } : RetryState).dropped_logs) true ∈
        (Retry.log
          { now := 50, currentOk := true, factoryResult := some 2, acctOk := true, origOk := true }
          c3Rec
          { current_drain := none, dropped_logs := 1, last_try_time := 0 }).events :=
  retry_drop_reset_only_after_acct
    { now := 50, currentOk := true, factoryResult := some 2, acctOk := true, origOk := true }
    c3Rec { current_drain := none, dropped_logs := 1, last_try_time := 0 }
    (by decide) (by decide)
